import Mathlib

/-!
Verification of the recipe-draft lint and staging pipeline.

The definitions below are a shallow embedding of the Python modules
`code/Modules/final_lint.py`, `code/Modules/stage_pipeline.py` and
`code/drafts-checker.py`.  Document text is modelled as `String` split into
`List Char` lines; every function mirrors its Python source line by line.

Modelling notes, stated once here:
* `splitlinesKeepends` models `str.splitlines(keepends=True)` for the three
  universal line terminators LF, CRLF and CR; the exotic Unicode line
  boundaries Python also splits on (\x0b, \x0c, \x1c-\x1e, \x85, U+2028,
  U+2029) are not modelled.
* `pyIsSpace` models ASCII whitespace ([ \t\n\r\x0b\x0c]); the Unicode
  spaces Python additionally treats as whitespace are not modelled.
* The optional structured-parsing library (PyYAML) and the fuzzy matcher
  `difflib.get_close_matches` are external libraries, not code of this
  repository; they enter the model as parameters (`ParserModel`).  The
  hand-rolled fallback parser of `_parse_front_matter` is embedded in full.
-/

/-- A raw document line, terminator included, as produced by
`str.splitlines(keepends=True)`. -/
abbrev Line := List Char

/-- Python whitespace test for the ASCII range: the class matched by the
regex \s and stripped by `str.strip()`. -/
def pyIsSpace (c : Char) : Bool :=
  c == ' ' || c == '\t' || c == '\n' || c == '\r' || c == '\x0b' || c == '\x0c'

/-- A character of the regex class [A-Za-z0-9_] (the key pattern of
`final_lint.py`). -/
def isWordChar (c : Char) : Bool :=
  c.isAlpha || c.isDigit || c == '_'

/-- Python `str.strip()` with no arguments (whitespace both ends). -/
def pyStrip (cs : List Char) : List Char :=
  ((cs.dropWhile pyIsSpace).reverse.dropWhile pyIsSpace).reverse

/-- Python `str.rstrip("\n")`: trailing newline characters removed. -/
def stripNl (cs : List Char) : List Char :=
  (cs.reverse.dropWhile (· == '\n')).reverse

/-- Python `str.splitlines(keepends=True)` over LF, CRLF and CR. -/
def splitlinesKeepends : List Char → List (List Char)
  | [] => []
  | '\r' :: '\n' :: rest => ['\r', '\n'] :: splitlinesKeepends rest
  | '\n' :: rest => ['\n'] :: splitlinesKeepends rest
  | '\r' :: rest => ['\r'] :: splitlinesKeepends rest
  | c :: rest =>
    match splitlinesKeepends rest with
    | [] => [[c]]
    | l :: ls => (c :: l) :: ls

/-- The delimiter content compared against `line.strip()` in
`_extract_front_matter`. -/
def dashes : List Char := ['-', '-', '-']

/-- The scan of `_extract_front_matter` over `lines[1:]` (final_lint.py
lines 149-158): collects header lines until a line strips to `---`, and
returns the 0-based index of that closing line, or -1 when none exists.
The index argument is the position of the first element of the list within
the whole document. -/
def fmScan : List Line → Nat → List Line × Int
  | [], _ => ([], -1)
  | l :: rest, i =>
    if pyStrip l = dashes then ([], Int.ofNat i)
    else
      let r := fmScan rest (i + 1)
      (l :: r.1, r.2)

/-- `_extract_front_matter` (final_lint.py lines 145-158): returns
(front-matter lines, start index, closing-delimiter index), the last two
being -1 when the document has no header. -/
def extractFrontMatter : List Line → List Line × Int × Int
  | [] => ([], -1, -1)
  | l0 :: rest =>
    if pyStrip l0 = dashes then
      let r := fmScan rest 1
      (r.1, 1, r.2)
    else ([], -1, -1)

/-- `LintIssue` of final_lint.py: one diagnostic finding. -/
structure LintIssue where
  kind : String
  code : Option String
  message : String
  line : Option Int
  column : Option Int
  deriving DecidableEq, Repr

/-- `LintReport` of final_lint.py. -/
structure LintReport where
  ok : Bool
  issues : List LintIssue
  pretty_lines : List String
  deriving DecidableEq, Repr

/-- The -1 sentinel of `LintReport.sorted_issues` for a missing line or
column. -/
def optKey (o : Option Int) : Int := o.getD (-1)

/-- The empty-string sentinel of `LintReport.sorted_issues` for a missing
code. -/
def codeKey (o : Option String) : String := o.getD ""

/-- Lexicographic order on character lists by code point, the order Python
uses to compare strings. -/
def strListLe : List Char → List Char → Bool
  | [], _ => true
  | _ :: _, [] => false
  | a :: as, b :: bs => if a = b then strListLe as bs else decide (a < b)

/-- String order by code points (Python string comparison). -/
def strKeyLe (a b : String) : Bool := strListLe a.toList b.toList

/-- The sort key comparison of `LintReport.sorted_issues` (final_lint.py
lines 61-70): by line with -1 for none, then column likewise, then code with
empty string for none, then message. -/
def issueKeyLe (x y : LintIssue) : Bool :=
  if optKey x.line ≠ optKey y.line then decide (optKey x.line < optKey y.line)
  else if optKey x.column ≠ optKey y.column then decide (optKey x.column < optKey y.column)
  else if codeKey x.code ≠ codeKey y.code then strKeyLe (codeKey x.code) (codeKey y.code)
  else strKeyLe x.message y.message

/-- Stable insertion for `sortedIssues`: x goes after every already placed
issue whose key is less or equal, as in a stable sort. -/
def insertIssue (x : LintIssue) : List LintIssue → List LintIssue
  | [] => [x]
  | y :: ys => if issueKeyLe y x then y :: insertIssue x ys else x :: y :: ys

/-- `LintReport.sorted_issues`: a stable sort of the issues by
`issueKeyLe`.  Python `sorted` is a stable sort; inserting each element in
sequence after all elements with an equal or smaller key realizes one. -/
def sortedIssues (l : List LintIssue) : List LintIssue :=
  l.foldl (fun acc x => insertIssue x acc) []

/-- The maximal [A-Za-z0-9_]* run at the start of a line: the key the
regexes of final_lint.py anchor on.  Since a colon is not a word character,
the greedy key group of each regex can only match this run. -/
def keyChars (s : List Char) : List Char := s.takeWhile isWordChar

/-- A character of the regex class [^"\n]. -/
def noQNl (c : Char) : Bool := !(c == '"') && !(c == '\n')

/-- COLON_NO_SPACE_RE (final_lint.py line 40): matches
key ([A-Za-z0-9_]+), a colon, then one non-whitespace character. -/
def matchesR1 (s : List Char) : Bool :=
  let k := keyChars s
  !k.isEmpty &&
    match s.drop k.length with
    | ':' :: c :: _ => !pyIsSpace c
    | _ => false

/-- The part of INNER_COLON_UNQUOTED_RE after the key and colon, the regex
fragment \s* [^"\n]* : [^"\n]* anchored to the end of the line, by explicit
search over the two split points (the backtracking semantics of the
regex). -/
def tailR2 (rest : List Char) : Bool :=
  (List.range (rest.length + 1)).any fun i =>
    ((rest.take i).all pyIsSpace) &&
      ((List.range (rest.drop i).length).any fun j =>
        (((rest.drop i).take j).all noQNl) &&
        ((rest.drop i).get? j == some ':') &&
        (((rest.drop i).drop (j + 1)).all noQNl))

/-- INNER_COLON_UNQUOTED_RE (final_lint.py line 43). -/
def matchesR2 (s : List Char) : Bool :=
  let k := keyChars s
  !k.isEmpty &&
    match s.drop k.length with
    | ':' :: rest => tailR2 rest
    | _ => false

/-- The part of MISSING_CLOSE_QUOTE_RE after the key and colon: the
fragment \s* " [^"\n]* anchored to the end of the line. -/
def tailR3 (rest : List Char) : Bool :=
  (List.range (rest.length + 1)).any fun i =>
    ((rest.take i).all pyIsSpace) &&
      match rest.drop i with
      | '"' :: t => t.all noQNl
      | _ => false

/-- MISSING_CLOSE_QUOTE_RE (final_lint.py line 41). -/
def matchesR3 (s : List Char) : Bool :=
  let k := keyChars s
  !k.isEmpty &&
    match s.drop k.length with
    | ':' :: rest => tailR3 rest
    | _ => false

/-- The regex fragment .* " anchored to the end of the line (the dot does
not match a newline): the line ends in a double quote and no newline occurs
before it. -/
def endsWithQuote (t : List Char) : Bool :=
  match t.getLast? with
  | some '"' => t.dropLast.all (· != '\n')
  | _ => false

/-- The part of MISSING_OPEN_QUOTE_RE after the key and colon: the fragment
\s+ [^"\s] .* " anchored to the end of the line. -/
def tailR4 (rest : List Char) : Bool :=
  (List.range (rest.length + 1)).any fun i =>
    decide (1 ≤ i) && ((rest.take i).all pyIsSpace) &&
      match rest.drop i with
      | c :: t => !pyIsSpace c && !(c == '"') && endsWithQuote t
      | [] => false

/-- MISSING_OPEN_QUOTE_RE (final_lint.py line 42). -/
def matchesR4 (s : List Char) : Bool :=
  let k := keyChars s
  !k.isEmpty &&
    match s.drop k.length with
    | ':' :: rest => tailR4 rest
    | _ => false

/-- Python `stripped.find(":")`: 0-based index of the first colon, -1 when
absent. -/
def pyFindColon (s : List Char) : Int :=
  match s.findIdx? (· == ':') with
  | some n => Int.ofNat n
  | none => -1

/-- The per-line body of the loop of `_pretty_front_matter` (final_lint.py
lines 167-207): the issue, if any, that line idx contributes.  A blank line
contributes nothing; otherwise the four regexes are tried in their fixed
order and the first match decides the single issue.  The columns mirror the
source: rule 1 the position of the character after the colon, rule 2 the
position of the first colon, rule 3 one past the end of the line, rule 4
two past the text before the first colon (all 1-based). -/
def lineIssue (idx : Nat) (raw : Line) : Option LintIssue :=
  let s := pyStrip (stripNl raw)
  if s.isEmpty then none
  else if matchesR1 s then
    some ⟨"front_matter_syntax", some "E_FM_SPACE", "missing space after \x27:\x27",
      some (Int.ofNat idx), some (Int.ofNat ((keyChars s).length + 2))⟩
  else if matchesR2 s then
    some ⟨"front_matter_syntax", some "E_FM_QUOTE_COLON",
      "value contains \x27:\x27 and must be quoted",
      some (Int.ofNat idx), some (pyFindColon s + 1)⟩
  else if matchesR3 s then
    some ⟨"front_matter_syntax", some "E_FM_QUOTE_CLOSE", "missing \" at the end of line",
      some (Int.ofNat idx), some (Int.ofNat (s.length + 1))⟩
  else if matchesR4 s then
    some ⟨"front_matter_syntax", some "E_FM_QUOTE_OPEN", "missing \" at the beginning of value",
      some (Int.ofNat idx), some (Int.ofNat ((s.takeWhile (· != ':')).length + 2))⟩
  else none

/-- Pairs each element with its 1-based position, as
`enumerate(fm_lines, start=1)`. -/
def enumFrom {α : Type} : Nat → List α → List (Nat × α)
  | _, [] => []
  | i, a :: as => (i, a) :: enumFrom (i + 1) as

/-- The issues collected by `_pretty_front_matter` over the front-matter
lines, in line order (final_lint.py lines 161-213, issue side). -/
def prettyIssues (fm : List Line) : List LintIssue :=
  (enumFrom 1 fm).filterMap fun p => lineIssue p.1 p.2

/-- Python f-string formatting {n:02d}. -/
def fmt02 (n : Nat) : String := if n < 10 then "0" ++ toString n else toString n

/-- Python `str.split()` with no arguments: words separated by whitespace
runs, no empty words.  The accumulator holds the current word reversed. -/
def splitWsGo : List Char → List Char → List (List Char)
  | [], acc => if acc.isEmpty then [] else [acc.reverse]
  | c :: rest, acc =>
    if pyIsSpace c then
      if acc.isEmpty then splitWsGo rest [] else acc.reverse :: splitWsGo rest []
    else splitWsGo rest (c :: acc)

/-- Python `line.split()`. -/
def pyWords (cs : List Char) : List (List Char) := splitWsGo cs []

/-- Joins words with single spaces, as `" ".join(words)`. -/
def joinSpace : List (List Char) → List Char
  | [] => []
  | [w] => w
  | w :: ws => w ++ ' ' :: joinSpace ws

/-- `_shorten_line` (final_lint.py lines 138-142): lines of more than six
words keep the first three and last three around an ellipsis. -/
def shortenLine (cs : List Char) : List Char :=
  let ws := pyWords cs
  if ws.length ≤ 6 then cs
  else joinSpace (ws.take 3) ++ " ... ".toList ++ joinSpace (ws.drop (ws.length - 3))

/-- The pretty-trace lines of `_pretty_front_matter` after the START line:
per non-blank line either an OK line or an ERROR line numbered by the count
of errors so far, then the END line. -/
def prettyLinesGo : List (Nat × Line) → Nat → List String
  | [], _ => ["END\t---"]
  | (i, raw) :: rest, errs =>
    let r := stripNl raw
    let s := pyStrip r
    if s.isEmpty then prettyLinesGo rest errs
    else
      match lineIssue i raw with
      | some _ =>
        ("ERROR " ++ fmt02 (errs + 1) ++ "\t" ++ String.mk (shortenLine r))
          :: prettyLinesGo rest (errs + 1)
      | none => ("OK\t\t" ++ String.mk r) :: prettyLinesGo rest errs

/-- The pretty-trace side of `_pretty_front_matter`: always starts with the
START line and ends with the END line. -/
def prettyLinesOf (fm : List Line) : List String :=
  "START\t\t---" :: prettyLinesGo (enumFrom 1 fm) 0

/-- REQUIRED_FRONT_FIELDS (final_lint.py lines 13-18). -/
def REQUIRED_FRONT_FIELDS : List String :=
  ["layout", "title", "category", "description"]

/-- KNOWN_FIELDS (final_lint.py lines 20-30). -/
def KNOWN_FIELDS : List String :=
  REQUIRED_FRONT_FIELDS ++
    ["type", "origin", "spiciness", "diabetic_friendly", "image", "source",
     "notes", "author", "yield"]

/-- REQUIRED_SECTIONS (final_lint.py lines 32-38). -/
def REQUIRED_SECTIONS : List String :=
  ["## מצרכים",
   "## אופן ההכנה",
   "## ערכים תזונתיים (הערכה ל-100 גרם)",
   "### ויטמינים ומינרלים בולטים",
   "## הערות"]

/-- `_extract_sections` (final_lint.py lines 272-273): the stripped body
lines that start with a number sign, in order. -/
def extractSections (body : List Line) : List String :=
  body.filterMap fun l =>
    match pyStrip l with
    | '#' :: t => some (String.mk ('#' :: t))
    | _ => none

/-- Python repr of a list of strings, as interpolated by the f-strings of
`_lint_sections`.  The section strings contain no quotes or backslashes, so
repr of each element is the element between two single-quote characters. -/
def pyListRepr (xs : List String) : String :=
  "[" ++ String.intercalate ", " (xs.map fun s => "\x27" ++ s ++ "\x27") ++ "]"

/-- `_lint_sections` (final_lint.py lines 276-302): no issues when the
found headings equal REQUIRED_SECTIONS exactly, otherwise exactly the three
issues E_SEC_ORDER, E_SEC_EXPECTED, E_SEC_FOUND of kind sections. -/
def lintSections (body : List Line) : List LintIssue :=
  let found := extractSections body
  if found = REQUIRED_SECTIONS then []
  else
    [⟨"sections", some "E_SEC_ORDER", "Invalid section order", none, none⟩,
     ⟨"sections", some "E_SEC_EXPECTED", "Expected: " ++ pyListRepr REQUIRED_SECTIONS,
       none, none⟩,
     ⟨"sections", some "E_SEC_FOUND", "Found:    " ++ pyListRepr found, none, none⟩]

/-- `_lint_front_matter_semantics` (final_lint.py lines 216-247) over the
keys of the parsed mapping, in mapping order.  The fuzzy suggestion
`difflib.get_close_matches(key, KNOWN_FIELDS, n=1)` is an external library
call and enters as the parameter `suggest`. -/
def lintFrontMatterSemantics (suggest : String → Option String) (keys : List String) :
    List LintIssue :=
  (REQUIRED_FRONT_FIELDS.filterMap fun k =>
    if k ∈ keys then none
    else some ⟨"front_matter_semantic", some "E_FM_REQUIRED_FIELD",
      "Missing required field \x27" ++ k ++ "\x27", none, none⟩)
  ++ (keys.filterMap fun k =>
    if k ∈ KNOWN_FIELDS then none
    else some ⟨"front_matter_semantic", some "E_FM_UNKNOWN_FIELD",
      "Unknown field \x27" ++ k ++ "\x27" ++
        (match suggest k with
         | some sug => ", did you mean \x27" ++ sug ++ "\x27?"
         | none => ""), none, none⟩)

/-- Python dict insertion: an existing key keeps its position, a new key
goes last.  Only the keys of the parsed mapping are tracked, because no
consumer in the linted path reads the values. -/
def insertKey (ks : List String) (k : String) : List String :=
  if k ∈ ks then ks else ks ++ [k]

/-- The loop of the fallback branch of `_parse_front_matter` (final_lint.py
lines 259-269): blank lines are skipped, a non-blank line without a colon
aborts with the invalid-line error, otherwise the text before the first
colon, stripped, becomes a key. -/
def fallbackGo : List Line → Nat → List String → Option (List String) × Option String
  | [], _, acc => (some acc, none)
  | raw :: rest, idx, acc =>
    let s := pyStrip raw
    if s.isEmpty then fallbackGo rest (idx + 1) acc
    else if s.contains ':' then
      fallbackGo rest (idx + 1)
        (insertKey acc (String.mk (pyStrip (s.takeWhile (· != ':')))))
    else (none, some ("Invalid YAML front matter: invalid line " ++ toString idx))

/-- The fallback branch of `_parse_front_matter`, used when the structured
parsing library is unavailable: (keys of the mapping, none) on success,
(none, error text) on the first line without a colon. -/
def parseFrontMatterFallback (fm : List Line) : Option (List String) × Option String :=
  fallbackGo fm 1 []

/-- The two external dependencies of the lint engine: the header parser
(`yaml.safe_load` when the library is importable, else the fallback above)
and the fuzzy matcher.  `parse` returns (keys of the mapping when the
result is a mapping, error text); the linted path reads nothing else from
the parse result. -/
structure ParserModel where
  parse : List Line → Option (List String) × Option String
  suggest : String → Option String

/-- The lint engine with the fallback header parser and no fuzzy
suggestions: the configuration of `finallint` when PyYAML is absent. -/
def pmFallback : ParserModel :=
  ⟨parseFrontMatterFallback, fun _ => none⟩

/-- The branches of `finallint.lint_text` after the front matter was
extracted and found syntactically clean (final_lint.py lines 103-135):
parse, the two semantic short circuits, then schema and section checks with
the canonical sort.  The parse-error test mirrors the truthiness test
`if parse_error:` of the source. -/
def semanticReport (pm : ParserModel) (lines : List Line) : LintReport :=
  let pr := pm.parse (extractFrontMatter lines).1
  if (pr.2.getD "") ≠ "" then
    ⟨false, [⟨"front_matter_semantic", some "E_FM_YAML", pr.2.getD "", none, none⟩], []⟩
  else
    match pr.1 with
    | none =>
      ⟨false, [⟨"front_matter_semantic", some "E_FM_NOT_MAP",
        "Front matter must be a YAML mapping", none, none⟩], []⟩
    | some keys =>
      let issues := lintFrontMatterSemantics pm.suggest keys ++
        lintSections (lines.drop ((extractFrontMatter lines).2.2.toNat + 1))
      ⟨issues.isEmpty, sortedIssues issues, []⟩

/-- `finallint.lint_text` on the line list (final_lint.py lines 88-135):
no header means an ok report with nothing in it; syntax issues end the pass
with only them and the pretty trace; otherwise the semantic branches run. -/
def buildReport (pm : ParserModel) (lines : List Line) : LintReport :=
  if (extractFrontMatter lines).2.2 = -1 then ⟨true, [], []⟩
  else if (prettyIssues (extractFrontMatter lines).1).isEmpty then
    semanticReport pm lines
  else
    ⟨false, sortedIssues (prettyIssues (extractFrontMatter lines).1),
      prettyLinesOf (extractFrontMatter lines).1⟩

/-- `finallint.lint_text`: the report of one lint pass over one document
text. -/
def lintText (pm : ParserModel) (text : String) : LintReport :=
  buildReport pm (splitlinesKeepends text.toList)

/-- Python `str.replace("\r\n", "\n")`: left-to-right, non-overlapping. -/
def normCrlf : List Char → List Char
  | [] => []
  | '\r' :: '\n' :: rest => '\n' :: normCrlf rest
  | c :: rest => c :: normCrlf rest

/-- Whether the text contains a CRLF pair. -/
def hasCrlf : List Char → Bool
  | [] => false
  | '\r' :: '\n' :: _ => true
  | _ :: rest => hasCrlf rest

/-- Splits at the first newline: (characters before it, characters after
it), or none when there is no newline.  This is the deterministic reading
of the greedy regex fragment [^\n]* \n. -/
def splitAtNl : List Char → Option (List Char × List Char)
  | [] => none
  | '\n' :: rest => some ([], rest)
  | c :: rest =>
    match splitAtNl rest with
    | some (pre, post) => some (c :: pre, post)
    | none => none

/-- The maximal whitespace run at the front, and the rest: the
deterministic reading of the greedy fragment \s+ followed by a
non-whitespace literal. -/
def spanSpace (cs : List Char) : List Char × List Char :=
  (cs.takeWhile pyIsSpace, cs.dropWhile pyIsSpace)

/-- Group 1 of the merge regex of `merge_nutrition_sections`
(drafts-checker.py lines 403-406): the fragment
## \s+ ערכים \s+ תזונתיים [^\n]* \n matched at the start of the given
text.  Returns (the matched characters, the rest) when it matches.  Both
whitespace runs are forced maximal because the following literal starts
with a non-whitespace character, and [^\n]* \n is forced to end at the
first newline. -/
def matchHeadingAt (cs : List Char) : Option (List Char × List Char) :=
  match cs with
  | '#' :: '#' :: t =>
    let w1 := "ערכים".toList
    let w2 := "תזונתיים".toList
    let s1 := spanSpace t
    if s1.1.isEmpty then none
    else if (s1.2.take w1.length) = w1 then
      let t2 := s1.2.drop w1.length
      let s2 := spanSpace t2
      if s2.1.isEmpty then none
      else if (s2.2.take w2.length) = w2 then
        let t3 := s2.2.drop w2.length
        match splitAtNl t3 with
        | some (pre, post) =>
          some ('#' :: '#' :: (s1.1 ++ w1 ++ s2.1 ++ w2 ++ pre ++ ['\n']), post)
        | none => none
      else none
    else none
  | _ => none

/-- The leftmost position where group 1 of the merge regex matches:
(characters before the match, group 1, the rest).  Python re.subn with
count=1 rewrites exactly this leftmost match; since the pattern is compiled
with DOTALL, the lazy group 2 with its lookahead can always complete a
match once group 1 matches, so scanning for group 1 alone is faithful. -/
def findNutrition : List Char → Option (List Char × List Char × List Char)
  | [] => none
  | c :: t =>
    match matchHeadingAt (c :: t) with
    | some (g1, rest) => some ([], g1, rest)
    | none =>
      match findNutrition t with
      | some (pre, g1, rest) => some (c :: pre, g1, rest)
      | none => none

/-- The lookahead (?= \n ## \s | \Z) of the merge regex, tested at the
start of the given text (end of text handled by the caller). -/
def isLookahead : List Char → Bool
  | '\n' :: '#' :: '#' :: c :: _ => pyIsSpace c
  | _ => false

/-- The lazy group 2 of the merge regex: the shortest run of characters
after group 1 up to the lookahead or the end of the text.  Returns
(group 2, the suffix left in place by the lookahead). -/
def group2Split : List Char → List Char × List Char
  | [] => ([], [])
  | c :: t =>
    if isLookahead (c :: t) then ([], c :: t)
    else
      let r := group2Split t
      (c :: r.1, r.2)

/-- One piece of a parsed re substitution template: a literal chunk or a
group reference. -/
inductive TemplPart where
  | lit (cs : List Char)
  | group (n : Nat)
  deriving DecidableEq, Repr

/-- A character of the regex class [0-7]. -/
def isOctDigit (c : Char) : Bool := decide ('0' <= c) && decide (c <= '7')

/-- Numeric value of a decimal digit character. -/
def digitVal (c : Char) : Nat := c.toNat - '0'.toNat

/-- The ESCAPES table of the template parser of the Python re module: the
two-character escapes that denote single literal characters. -/
def escChar (c : Char) : Option Char :=
  if c = 'a' then some '\x07'
  else if c = 'b' then some '\x08'
  else if c = 'f' then some '\x0c'
  else if c = 'n' then some '\n'
  else if c = 'r' then some '\r'
  else if c = 't' then some '\t'
  else if c = 'v' then some '\x0b'
  else if c = '\\' then some '\\'
  else none

/-- A Python identifier over ASCII: letter or underscore, then letters,
digits and underscores.  The Unicode identifier characters Python also
accepts are not modelled. -/
def isPyIdentifier : List Char → Bool
  | [] => false
  | c :: rest =>
    (c.isAlpha || c == '_') && rest.all fun x => x.isAlpha || x.isDigit || x == '_'

/-- Value of a string of decimal digits. -/
def natOfDigits (cs : List Char) : Nat :=
  cs.foldl (fun n c => n * 10 + digitVal c) 0

/-- Tokenizer state of the substitution-template parser: scanning
ordinary text, just after a backslash, after backslash g, collecting a
\g<...> name (accumulator reversed), after backslash 0 with zero or one
octal digit taken, or after one or two decimal digits of a numeric
reference. -/
inductive TState where
  | normal
  | esc
  | escG
  | gname (acc : List Char)
  | oct0a
  | oct0b (d1 : Char)
  | dig1 (d : Char)
  | dig2 (d d2 : Char)
  deriving DecidableEq, Repr

/-- Processing one character in ordinary scanning: a backslash opens an
escape, anything else is a literal. -/
def normStep (c : Char) : List TemplPart × TState :=
  if c = '\\' then ([], TState.esc) else ([TemplPart.lit [c]], TState.normal)

/-- Finishing a \g<...> name at its closing bracket, for a pattern with
`groups` numbered groups and no named groups (the merge pattern of
drafts-checker.py has two, unnamed): an identifier fails the group-index
lookup, a number is validated against the group count, anything else is a
bad character.  Mirrors re/_parser.py parse_template. -/
def endGName (groups : Nat) (acc : List Char) : Except String (List TemplPart × TState) :=
  if acc.isEmpty then Except.error "missing group name"
  else
    let name := acc.reverse
    if isPyIdentifier name then Except.error "unknown group name"
    else if name.all Char.isDigit then
      if natOfDigits name > groups then Except.error "invalid group reference"
      else Except.ok ([TemplPart.group (natOfDigits name)], TState.normal)
    else Except.error "bad character in group name"

/-- One step of the substitution-template parser of the Python re module
(re/_parser.py, parse_template), which CPython runs on a string
replacement before any match is attempted: consumes one character in the
given state and returns the emitted parts and the next state, or the
error.  Faithfully modelled: the ESCAPES table, bad-escape errors on the
other ASCII letters, literal pass-through of non-letter escapes, octal
escapes backslash-0oo and backslash-ooo with the range check, one- and
two-digit group references with the group-count check, and \g<...> with
its missing-<, missing-name, unterminated-name, unknown-name and
bad-character errors.  Not modelled (unreachable for the inputs built
here): error position offsets, backslash pairs read as single tokens
inside a \g<> name, Unicode identifier names, and the sign, whitespace
and underscore forms Python int() would also accept in a numeric name.
Error messages keep the Python wording without positions. -/
def tstep (groups : Nat) (st : TState) (c : Char) : Except String (List TemplPart × TState) :=
  match st with
  | TState.normal => Except.ok (normStep c)
  | TState.esc =>
    if c = 'g' then Except.ok ([], TState.escG)
    else if c = '0' then Except.ok ([], TState.oct0a)
    else if c.isDigit then Except.ok ([], TState.dig1 c)
    else
      match escChar c with
      | some e => Except.ok ([TemplPart.lit [e]], TState.normal)
      | none =>
        if c.isAlpha then Except.error "bad escape"
        else Except.ok ([TemplPart.lit ['\\', c]], TState.normal)
  | TState.escG =>
    if c = '<' then Except.ok ([], TState.gname [])
    else Except.error "missing <"
  | TState.gname acc =>
    if c = '>' then endGName groups acc
    else Except.ok ([], TState.gname (c :: acc))
  | TState.oct0a =>
    if isOctDigit c then Except.ok ([], TState.oct0b c)
    else
      let r := normStep c
      Except.ok (TemplPart.lit [Char.ofNat 0] :: r.1, r.2)
  | TState.oct0b d1 =>
    if isOctDigit c then
      Except.ok ([TemplPart.lit [Char.ofNat (digitVal d1 * 8 + digitVal c)]], TState.normal)
    else
      let r := normStep c
      Except.ok (TemplPart.lit [Char.ofNat (digitVal d1)] :: r.1, r.2)
  | TState.dig1 d =>
    if c.isDigit then Except.ok ([], TState.dig2 d c)
    else if digitVal d > groups then Except.error "invalid group reference"
    else
      let r := normStep c
      Except.ok (TemplPart.group (digitVal d) :: r.1, r.2)
  | TState.dig2 d d2 =>
    if isOctDigit d && isOctDigit d2 && isOctDigit c then
      if digitVal d * 64 + digitVal d2 * 8 + digitVal c > 255 then
        Except.error "octal escape value outside of range 0-0o377"
      else
        Except.ok ([TemplPart.lit [Char.ofNat (digitVal d * 64 + digitVal d2 * 8 + digitVal c)]],
          TState.normal)
    else if digitVal d * 10 + digitVal d2 > groups then
      Except.error "invalid group reference"
    else
      let r := normStep c
      Except.ok (TemplPart.group (digitVal d * 10 + digitVal d2) :: r.1, r.2)

/-- End of the replacement string in the given state: a pending backslash
is the bad-escape-at-end error, a pending \g reference one of its errors,
pending octal digits and numeric references are finished as in
re/_parser.py (the latter validated against the group count). -/
def tfinal (groups : Nat) (st : TState) : Except String (List TemplPart) :=
  match st with
  | TState.normal => Except.ok []
  | TState.esc => Except.error "bad escape (end of pattern)"
  | TState.escG => Except.error "missing <"
  | TState.gname acc =>
    if acc.isEmpty then Except.error "missing group name"
    else Except.error "missing >, unterminated name"
  | TState.oct0a => Except.ok [TemplPart.lit [Char.ofNat 0]]
  | TState.oct0b d1 => Except.ok [TemplPart.lit [Char.ofNat (digitVal d1)]]
  | TState.dig1 d =>
    if digitVal d > groups then Except.error "invalid group reference"
    else Except.ok [TemplPart.group (digitVal d)]
  | TState.dig2 d d2 =>
    if digitVal d * 10 + digitVal d2 > groups then Except.error "invalid group reference"
    else Except.ok [TemplPart.group (digitVal d * 10 + digitVal d2)]

/-- The substitution-template parser: runs `tstep` over the characters
and `tfinal` at the end, concatenating the emitted parts. -/
def parseTemplGo (groups : Nat) : List Char → TState → Except String (List TemplPart)
  | [], st => tfinal groups st
  | c :: rest, st =>
    match tstep groups st c with
    | Except.error e => Except.error e
    | Except.ok (parts, st2) =>
      Except.map (fun ps => parts ++ ps) (parseTemplGo groups rest st2)

/-- Parses a substitution template against a pattern with `groups`
numbered groups, as CPython does before scanning for matches. -/
def parseTemplate (groups : Nat) (cs : List Char) : Except String (List TemplPart) :=
  parseTemplGo groups cs TState.normal

/-- The replacement template merge_nutrition_sections hands to re.subn:
the raw prefix backslash-1 backslash-n, then the stripped block, then a
literal newline (drafts-checker.py line 408). -/
def mergeTemplate (blk : List Char) : List Char :=
  '\\' :: '1' :: '\\' :: 'n' :: (blk ++ ['\n'])

/-- Whether the merge replacement template built from the stripped block
compiles: the condition under which re.subn does not raise on template
parsing.  The merge pattern has two groups. -/
def templOk (blk : List Char) : Bool :=
  match parseTemplate 2 (mergeTemplate blk) with
  | Except.ok _ => true
  | Except.error _ => false

/-- Expansion of a parsed template at a match of the merge pattern: group
1 is the heading line, group 2 the replaced section body, group 0 the
whole match (their concatenation; the lookahead is not part of the match).
Higher group numbers were rejected at parse time. -/
def expandTemplate (parts : List TemplPart) (g1 g2 : List Char) : List Char :=
  parts.foldr
    (fun p acc =>
      (match p with
       | TemplPart.lit cs => cs
       | TemplPart.group 0 => g1 ++ g2
       | TemplPart.group 1 => g1
       | TemplPart.group 2 => g2
       | TemplPart.group _ => []) ++ acc) []

/-- `merge_nutrition_sections` (drafts-checker.py lines 390-416): a blank
block returns the document as given; otherwise CRLF line endings are
normalized and re.subn runs with the replacement template above.  CPython
compiles the template before scanning, so an invalid template raises
re.error even when the pattern never matches — modelled as `Except.error`
with the message.  With a valid template, no match returns the normalized
document, and the leftmost match is replaced by the expanded template. -/
def mergeNutritionSections (original block : List Char) : Except String (List Char) :=
  if (pyStrip block).isEmpty then Except.ok original
  else
    let orig := normCrlf original
    let blk := pyStrip block
    match parseTemplate 2 (mergeTemplate blk) with
    | Except.error e => Except.error e
    | Except.ok parts =>
      match findNutrition orig with
      | none => Except.ok orig
      | some (pre, g1, rest) =>
        let r := group2Split rest
        Except.ok (pre ++ expandTemplate parts g1 r.1 ++ r.2)

/-- `StagePipeline.STAGES` (stage_pipeline.py lines 19-26): the stage
vocabulary the class actually defines, name to directory. -/
def stagePipelineSTAGES : List (String × String) :=
  [("input", "01_input"),
   ("ai_normalized", "02_ai_normalized"),
   ("linted", "03_linted"),
   ("ai_fixed", "04_ai_fixed"),
   ("ready", "05_ready"),
   ("rejected", "06_rejected")]

/-- The stage-transition methods `StagePipeline` defines
(stage_pipeline.py lines 66-91): its complete public `to_<stage>`
surface. -/
def stagePipelineOps : List String :=
  ["to_input", "to_ai_normalized", "to_linted", "to_ai_fixed", "to_ready",
   "to_rejected"]

/-- The stage transitions `_process_one_draft` invokes on its AI branch, in
program order with duplicates removed (drafts-checker.py lines 214-341 via
`run_final_lint`): snapshot, normalize, the three enrichment and merge
writes, the lint copy, the fix write, and the two terminal copies. -/
def aiBranchOps : List String :=
  ["to_input", "to_ai_normalized", "to_enriched_frontmatter",
   "to_enriched_nutrition", "to_merged", "to_linted", "to_ai_fixed",
   "to_ready", "to_rejected"]

/-- The nine-stage vocabulary the specification fixes for the pipeline:
input, normalized, enriched_frontmatter, enriched_nutrition, merged,
linted, fixed, ready, rejected. -/
def specStageVocabulary : List String :=
  ["input", "normalized", "enriched_frontmatter", "enriched_nutrition",
   "merged", "linted", "fixed", "ready", "rejected"]

/-- One filesystem snapshot of the two paths `StagePipeline._write`
touches: the temporary sibling path and the final target path.  `none`
means the path does not exist. -/
structure FSState where
  tmp : Option (List Char)
  target : Option (List Char)
  deriving DecidableEq, Repr

/-- The sequence of filesystem snapshots during one
`StagePipeline._write` of the given content to a fresh target
(stage_pipeline.py lines 108-128): `tmp.write_text` streams the content
into the temporary sibling path, so after it has accepted k characters the
temporary path holds the first k characters and the target is untouched;
then `os.replace` moves the complete temporary file onto the target in one
atomic step.  A crash leaves the filesystem in one of these snapshots. -/
def writeStates (content : List Char) : List FSState :=
  ((List.range (content.length + 1)).map fun k => ⟨some (content.take k), none⟩)
    ++ [⟨none, some content⟩]

/-- The temporary sibling path of `StagePipeline._write`:
`target.with_suffix(target.suffix + ".tmp")`, which appends `.tmp` to the
target name. -/
def tmpPathOf (p : String) : String := p ++ ".tmp"

/-- Result of a modelled run of `_process_one_draft` on the AI branch. -/
structure AIRun where
  attempts : Nat
  lintPasses : Nat
  result : Sum String String
  deriving DecidableEq, Repr

/-- Terminal classification of `_process_one_draft` (drafts-checker.py
lines 334-344): no remaining issues copies to ready, otherwise to rejected
with the issue metadata.  `Sum.inr` is a completed run with its status,
`Sum.inl` an AttributeError on the named missing pipeline method. -/
def finishAI (ops : List String) (attempts lintPasses : Nat) (issuesRemain : Bool) :
    AIRun :=
  if issuesRemain then
    if "to_rejected" ∈ ops then ⟨attempts, lintPasses, Sum.inr "rejected"⟩
    else ⟨attempts, lintPasses, Sum.inl "to_rejected"⟩
  else
    if "to_ready" ∈ ops then ⟨attempts, lintPasses, Sum.inr "ready"⟩
    else ⟨attempts, lintPasses, Sum.inl "to_ready"⟩

/-- The retry loop of `_process_one_draft` (drafts-checker.py lines
281-304): while issues remain and attempts are below the budget, increment
attempts, rewrite, write the fix stage, and lint again.  The first fuel
argument is max_attempts - attempts, which strictly decreases each
iteration; `hasIssues k` abstracts whether the k-th lint pass of the run
reports issues (the rewriter and linter composed). -/
def aiFixLoop (ops : List String) (hasIssues : Nat → Bool) :
    Nat → Nat → Nat → Bool → AIRun
  | 0, attempts, lintPasses, issuesRemain =>
    finishAI ops attempts lintPasses issuesRemain
  | remaining + 1, attempts, lintPasses, issuesRemain =>
    if issuesRemain then
      if "to_ai_fixed" ∈ ops then
        if "to_linted" ∈ ops then
          aiFixLoop ops hasIssues remaining (attempts + 1) (lintPasses + 1)
            (hasIssues (lintPasses + 1))
        else ⟨attempts + 1, lintPasses, Sum.inl "to_linted"⟩
      else ⟨attempts + 1, lintPasses, Sum.inl "to_ai_fixed"⟩
    else finishAI ops attempts lintPasses issuesRemain

/-- The AI branch of `_process_one_draft` (drafts-checker.py lines
214-344) against a pipeline object defining the stage-transition methods
in `ops`: snapshot to input, normalize, enrich front matter, enrich
nutrition, merge, lint once, then the bounded retry loop and the terminal
classification.  Invoking a method the pipeline does not define raises
AttributeError, modelled as `Sum.inl` with the method name; the run up to
that point has performed the recorded number of lint passes. -/
def processOneDraftAI (ops : List String) (hasIssues : Nat → Bool)
    (maxAttempts : Nat) : AIRun :=
  if "to_input" ∉ ops then ⟨0, 0, Sum.inl "to_input"⟩
  else if "to_ai_normalized" ∉ ops then ⟨1, 0, Sum.inl "to_ai_normalized"⟩
  else if "to_enriched_frontmatter" ∉ ops then ⟨1, 0, Sum.inl "to_enriched_frontmatter"⟩
  else if "to_enriched_nutrition" ∉ ops then ⟨1, 0, Sum.inl "to_enriched_nutrition"⟩
  else if "to_merged" ∉ ops then ⟨1, 0, Sum.inl "to_merged"⟩
  else if "to_linted" ∉ ops then ⟨1, 0, Sum.inl "to_linted"⟩
  else aiFixLoop ops hasIssues (maxAttempts - 1) 1 1 (hasIssues 1)

/-- Whether the first line of the document strips to the `---` delimiter:
the condition `lines[0].strip() == "---"` guarding header extraction. -/
def headLineIsDashes (lines : List Line) : Bool :=
  match lines with
  | [] => false
  | l :: _ => pyStrip l = dashes

/-- Whether any line after the first strips to the `---` delimiter: the
existence of the closing delimiter `_extract_front_matter` scans for. -/
def hasClosingDashes (lines : List Line) : Bool :=
  match lines with
  | [] => false
  | _ :: rest => rest.any fun l => pyStrip l = dashes

theorem mem_insertIssue (a x : LintIssue) (l : List LintIssue) :
    a ∈ insertIssue x l ↔ a = x ∨ a ∈ l := by
  induction l with
  | nil => simp [insertIssue]
  | cons y ys ih =>
    simp only [insertIssue]
    split_ifs with h
    · simp only [List.mem_cons, ih]
      tauto
    · simp [List.mem_cons]

theorem mem_foldl_insertIssue (a : LintIssue) (l : List LintIssue) :
    ∀ acc, (a ∈ l.foldl (fun acc x => insertIssue x acc) acc ↔ a ∈ acc ∨ a ∈ l) := by
  induction l with
  | nil => intro acc; simp
  | cons x xs ih =>
    intro acc
    rw [List.foldl_cons, ih, mem_insertIssue]
    simp only [List.mem_cons]
    tauto

theorem mem_sortedIssues (a : LintIssue) (l : List LintIssue) :
    a ∈ sortedIssues l ↔ a ∈ l := by
  unfold sortedIssues
  rw [mem_foldl_insertIssue]
  simp

theorem sortedIssues_ne_nil (l : List LintIssue) (h : l ≠ []) :
    sortedIssues l ≠ [] := by
  match l, h with
  | x :: xs, _ =>
    intro hs
    have hx : x ∈ sortedIssues (x :: xs) := by
      rw [mem_sortedIssues]
      exact List.mem_cons_self x xs
    rw [hs] at hx
    exact List.not_mem_nil x hx

theorem lineIssue_kind (idx : Nat) (raw : Line) (i : LintIssue)
    (h : lineIssue idx raw = some i) : i.kind = "front_matter_syntax" := by
  simp only [lineIssue] at h
  split_ifs at h <;> simp_all
  all_goals (rw [← h])

theorem prettyIssues_kind (fm : List Line) (i : LintIssue)
    (h : i ∈ prettyIssues fm) : i.kind = "front_matter_syntax" := by
  unfold prettyIssues at h
  rw [List.mem_filterMap] at h
  obtain ⟨p, _, hp⟩ := h
  exact lineIssue_kind p.1 p.2 i hp

theorem lintSections_kind (body : List Line) (i : LintIssue)
    (h : i ∈ lintSections body) : i.kind = "sections" := by
  simp only [lintSections] at h
  split_ifs at h
  · simp at h
  · simp only [List.mem_cons, List.not_mem_nil, or_false] at h
    rcases h with h | h | h <;> (subst h; rfl)

theorem lintFrontMatterSemantics_kind (suggest : String → Option String)
    (keys : List String) (i : LintIssue)
    (h : i ∈ lintFrontMatterSemantics suggest keys) :
    i.kind = "front_matter_semantic" := by
  unfold lintFrontMatterSemantics at h
  rw [List.mem_append] at h
  rcases h with h | h <;>
  · rw [List.mem_filterMap] at h
    obtain ⟨k, _, hk⟩ := h
    split_ifs at hk <;> simp_all
    rw [← hk]

theorem semanticReport_pretty (pm : ParserModel) (lines : List Line) :
    (semanticReport pm lines).pretty_lines = [] := by
  simp only [semanticReport]
  split_ifs
  · rfl
  · split <;> rfl

theorem semanticReport_kinds (pm : ParserModel) (lines : List Line)
    (i : LintIssue) (h : i ∈ (semanticReport pm lines).issues) :
    i.kind = "front_matter_semantic" ∨ i.kind = "sections" := by
  simp only [semanticReport] at h
  split_ifs at h
  · simp only [List.mem_singleton] at h
    subst h
    left; rfl
  · split at h
    · simp only [List.mem_singleton] at h
      subst h
      left; rfl
    · simp only at h
      rw [mem_sortedIssues, List.mem_append] at h
      rcases h with h | h
      · left; exact lintFrontMatterSemantics_kind _ _ _ h
      · right; exact lintSections_kind _ _ h

theorem fmScan_no_close (rest : List Line) (i : Nat)
    (h : ∀ l ∈ rest, pyStrip l ≠ dashes) : (fmScan rest i).2 = -1 := by
  induction rest generalizing i with
  | nil => rfl
  | cons l ls ih =>
    unfold fmScan
    rw [if_neg (h l (List.mem_cons_self l ls))]
    exact ih (i + 1) fun x hx => h x (List.mem_cons_of_mem l hx)

/-- C10: for every input text (and every header parser and fuzzy matcher),
the lint report has a non-empty pretty_lines trace exactly when it contains
at least one header-syntax issue; headerless, clean, parse-failure,
non-mapping, semantic-only and sections-only outcomes all leave
pretty_lines empty. -/
theorem c10_pretty_trace_iff_header_issue (pm : ParserModel) (text : String) :
    (lintText pm text).pretty_lines ≠ [] ↔
      ∃ i ∈ (lintText pm text).issues, i.kind = "front_matter_syntax" := by
  unfold lintText buildReport
  split_ifs with h1 h2
  · simp
  · constructor
    · intro hp
      exact absurd (semanticReport_pretty pm _) hp
    · rintro ⟨i, hi, hk⟩
      rcases semanticReport_kinds pm _ i hi with h | h <;>
        (rw [h] at hk; exact absurd hk (by decide))
  · constructor
    · intro _
      cases hpi : prettyIssues (extractFrontMatter (splitlinesKeepends text.toList)).1 with
      | nil => rw [hpi] at h2; simp at h2
      | cons a as =>
        refine ⟨a, ?_, ?_⟩
        · show a ∈ sortedIssues _
          rw [mem_sortedIssues]
          exact List.mem_cons_self a as
        · exact prettyIssues_kind _ a (by rw [hpi]; exact List.mem_cons_self a as)
    · intro _
      show "START\t\t---" :: _ ≠ []
      exact List.cons_ne_nil _ _

/-- C1: whenever the header is present and the header syntax check finds at
least one syntax error, the report has ok=false and every issue it contains
is a header-syntax issue — no semantic and no sections issue appears,
because those checks are skipped. -/
theorem c1_header_error_short_circuit (pm : ParserModel) (text : String)
    (hdr : (extractFrontMatter (splitlinesKeepends text.toList)).2.2 ≠ -1)
    (hsyn : prettyIssues (extractFrontMatter (splitlinesKeepends text.toList)).1 ≠ []) :
    (lintText pm text).ok = false ∧
    (lintText pm text).issues ≠ [] ∧
    ∀ i ∈ (lintText pm text).issues,
      i.kind = "front_matter_syntax" ∧
      i.kind ≠ "front_matter_semantic" ∧ i.kind ≠ "sections" := by
  unfold lintText buildReport
  rw [if_neg hdr]
  have hne : ¬(prettyIssues (extractFrontMatter (splitlinesKeepends text.toList)).1).isEmpty = true := by
    cases hpi : prettyIssues (extractFrontMatter (splitlinesKeepends text.toList)).1 with
    | nil => exact absurd hpi hsyn
    | cons a as => simp
  rw [if_neg hne]
  refine ⟨rfl, sortedIssues_ne_nil _ hsyn, ?_⟩
  intro i hi
  have hk : i.kind = "front_matter_syntax" := by
    rw [mem_sortedIssues] at hi
    exact prettyIssues_kind _ i hi
  refine ⟨hk, ?_, ?_⟩ <;> (rw [hk]; decide)

theorem c1_header_error_short_circuit_witness :
    (lintText pmFallback "---\na:b\n---\n").ok = false ∧
    (lintText pmFallback "---\na:b\n---\n").issues ≠ [] ∧
    ∀ i ∈ (lintText pmFallback "---\na:b\n---\n").issues,
      i.kind = "front_matter_syntax" ∧
      i.kind ≠ "front_matter_semantic" ∧ i.kind ≠ "sections" :=
  c1_header_error_short_circuit pmFallback "---\na:b\n---\n" (by decide) (by decide)

/-- C2: a document whose first line does not strip to the `---` delimiter,
or that opens a header without any later `---` line, gets the report
ok=true with no issues and no pretty_lines — it is never flagged
malformed. -/
theorem c2_headerless_never_flagged (pm : ParserModel) (text : String)
    (h : headLineIsDashes (splitlinesKeepends text.toList) = false ∨
         hasClosingDashes (splitlinesKeepends text.toList) = false) :
    lintText pm text = ⟨true, [], []⟩ := by
  unfold lintText buildReport
  have hend : (extractFrontMatter (splitlinesKeepends text.toList)).2.2 = -1 := by
    cases hl : splitlinesKeepends text.toList with
    | nil => rfl
    | cons l0 rest =>
      rw [hl] at h
      simp only [extractFrontMatter]
      by_cases hd : pyStrip l0 = dashes
      · rcases h with h | h
        · exact absurd hd (by simpa [headLineIsDashes] using h)
        · rw [if_pos hd]
          show (fmScan rest 1).2 = -1
          apply fmScan_no_close
          intro l hlm
          have hany : rest.any (fun l => pyStrip l = dashes) = false := by
            simpa [hasClosingDashes] using h
          have := List.any_eq_false.mp hany l hlm
          simpa using this
      · rw [if_neg hd]
  rw [if_pos hend]

theorem c2_headerless_never_flagged_witness :
    lintText pmFallback "---\ntitle x\nno closing delimiter\n" = ⟨true, [], []⟩ :=
  c2_headerless_never_flagged pmFallback "---\ntitle x\nno closing delimiter\n"
    (Or.inr (by decide))

/-- C8: the header syntax checker reports at most one issue per non-blank
header line, chosen by the fixed per-line precedence (missing space after
the colon, then unquoted inner colon, then missing closing quote, then
missing opening quote, first match wins); and the document whose header is
the single line layout:recipe yields exactly one issue, missing space
after the colon at line 1 column 8, with ok=false. -/
theorem c8_per_line_rule_order :
    (lintText pmFallback "---\nlayout:recipe\n---\n" =
      ⟨false,
       [⟨"front_matter_syntax", some "E_FM_SPACE", "missing space after \x27:\x27",
         some 1, some 8⟩],
       ["START\t\t---", "ERROR 01\tlayout:recipe", "END\t---"]⟩) ∧
    (∀ idx raw, ((lineIssue idx raw).toList).length ≤ 1) ∧
    (∀ idx raw, matchesR1 (pyStrip (stripNl raw)) = true →
      (lineIssue idx raw).map LintIssue.code = some (some "E_FM_SPACE")) ∧
    (∀ idx raw, matchesR1 (pyStrip (stripNl raw)) = false →
      matchesR2 (pyStrip (stripNl raw)) = true →
      (lineIssue idx raw).map LintIssue.code = some (some "E_FM_QUOTE_COLON")) ∧
    (∀ idx raw, matchesR1 (pyStrip (stripNl raw)) = false →
      matchesR2 (pyStrip (stripNl raw)) = false →
      matchesR3 (pyStrip (stripNl raw)) = true →
      (lineIssue idx raw).map LintIssue.code = some (some "E_FM_QUOTE_CLOSE")) ∧
    (∀ idx raw, matchesR1 (pyStrip (stripNl raw)) = false →
      matchesR2 (pyStrip (stripNl raw)) = false →
      matchesR3 (pyStrip (stripNl raw)) = false →
      matchesR4 (pyStrip (stripNl raw)) = true →
      (lineIssue idx raw).map LintIssue.code = some (some "E_FM_QUOTE_OPEN")) := by
  refine ⟨by decide, ?_, ?_, ?_, ?_, ?_⟩
  · intro idx raw
    cases lineIssue idx raw <;> simp
  · intro idx raw h1
    simp only [lineIssue]
    split_ifs <;> simp_all
    exact absurd h1 (by decide)
  · intro idx raw h1 h2
    simp only [lineIssue]
    split_ifs <;> simp_all
    exact absurd h2 (by decide)
  · intro idx raw h1 h2 h3
    simp only [lineIssue]
    split_ifs <;> simp_all
    exact absurd h3 (by decide)
  · intro idx raw h1 h2 h3 h4
    simp only [lineIssue]
    split_ifs <;> simp_all
    exact absurd h4 (by decide)

/-- C9: the section validator is all-or-nothing: when the ordered heading
sequence of the body differs in any way from the required five-heading
sequence it emits exactly the three sections issues E_SEC_ORDER,
E_SEC_EXPECTED and E_SEC_FOUND, and it emits nothing when the sequences
are equal. -/
theorem c9_sections_all_or_nothing (body : List Line) :
    REQUIRED_SECTIONS.length = 5 ∧
    (extractSections body = REQUIRED_SECTIONS → lintSections body = []) ∧
    (extractSections body ≠ REQUIRED_SECTIONS →
      (lintSections body).length = 3 ∧
      (lintSections body).map LintIssue.kind = ["sections", "sections", "sections"] ∧
      (lintSections body).map LintIssue.code =
        [some "E_SEC_ORDER", some "E_SEC_EXPECTED", some "E_SEC_FOUND"]) := by
  refine ⟨by decide, ?_, ?_⟩
  · intro h
    simp only [lintSections]
    rw [if_pos h]
  · intro h
    simp only [lintSections]
    rw [if_neg h]
    exact ⟨rfl, rfl, rfl⟩

theorem normCrlf_no_crlf (cs : List Char) (h : hasCrlf cs = false) : normCrlf cs = cs := by
  induction cs using normCrlf.induct with
  | case1 => rfl
  | case2 rest => simp [hasCrlf] at h
  | case3 c rest hne ih => simp_all [normCrlf, hasCrlf]

/-- C5 counterexample: the claimed unchanged, non-raising pass-through
fails in two ways on concrete inputs where the nutrition heading occurs
nowhere.  On a CRLF document with the block n, the merge succeeds but
returns a different document (the CRLF was rewritten to LF); and on a
plain document with the non-blank block backslash-q, the merge raises
(re.error, bad escape) because CPython compiles the replacement template
before scanning, so it does not return the document at all. -/
theorem c5_merge_counterexample :
    pyStrip "n".toList ≠ [] ∧
    findNutrition "x\r\ny".toList = none ∧
    findNutrition (normCrlf "x\r\ny".toList) = none ∧
    mergeNutritionSections "x\r\ny".toList "n".toList = Except.ok "x\ny".toList ∧
    ("x\ny".toList : List Char) ≠ "x\r\ny".toList ∧
    pyStrip "\\q".toList ≠ [] ∧
    findNutrition (normCrlf "x\ny".toList) = none ∧
    mergeNutritionSections "x\ny".toList "\\q".toList = Except.error "bad escape" := by
  refine ⟨by decide, by decide, by decide, by rfl, by decide, by decide, by decide, by rfl⟩

/-- C5 amended: for every document and every non-blank nutrition block
whose text compiles as a substitution template (templOk, true in
particular for every block without a backslash), if the nutrition heading
cannot be located the merge does not raise and returns the document with
each CRLF line ending replaced by LF but otherwise unchanged — hence
exactly the input whenever the input contains no CRLF.  A non-blank block
whose text is an invalid template instead raises re.error even though the
heading is absent (see the counterexample). -/
theorem c5_merge_passthrough_amended (original block : List Char)
    (hb : pyStrip block ≠ [])
    (hn : findNutrition (normCrlf original) = none)
    (ht : templOk (pyStrip block) = true) :
    mergeNutritionSections original block = Except.ok (normCrlf original) ∧
    (hasCrlf original = false →
      mergeNutritionSections original block = Except.ok original) := by
  have hbe : (pyStrip block).isEmpty = false := by
    cases hpb : pyStrip block with
    | nil => exact absurd hpb hb
    | cons a as => rfl
  obtain ⟨parts, hp⟩ :
      ∃ parts, parseTemplate 2 (mergeTemplate (pyStrip block)) = Except.ok parts := by
    cases hres : parseTemplate 2 (mergeTemplate (pyStrip block)) with
    | ok ps => exact ⟨ps, rfl⟩
    | error e =>
      unfold templOk at ht
      rw [hres] at ht
      simp at ht
  constructor
  · simp only [mergeNutritionSections, hbe, Bool.false_eq_true, if_false, hp, hn]
  · intro hcr
    simp only [mergeNutritionSections, hbe, Bool.false_eq_true, if_false, hp, hn]
    rw [normCrlf_no_crlf original hcr]

theorem c5_merge_passthrough_amended_witness :
    mergeNutritionSections "xyz".toList "n".toList = Except.ok (normCrlf "xyz".toList) ∧
    (hasCrlf "xyz".toList = false →
      mergeNutritionSections "xyz".toList "n".toList = Except.ok "xyz".toList) :=
  c5_merge_passthrough_amended "xyz".toList "n".toList (by decide) (by decide) (by decide)

/-- C6 counterexample: the documented block-list input, a key line followed
by a dash item line, makes the fallback parser fail: the item line has no
colon, so the parser aborts with the invalid-line error instead of
producing a mapping. -/
theorem c6_fallback_counterexample :
    parseFrontMatterFallback ["key:\n".toList, "- item\n".toList] =
      (none, some "Invalid YAML front matter: invalid line 2") := by decide

theorem fallbackGo_all_colon (fm : List Line)
    (h : ∀ l ∈ fm, pyStrip l = [] ∨ (pyStrip l).contains ':' = true) :
    ∀ idx acc, ∃ ks, fallbackGo fm idx acc = (some ks, none) := by
  induction fm with
  | nil => intro idx acc; exact ⟨acc, rfl⟩
  | cons raw rest ih =>
    intro idx acc
    have hrest : ∀ l ∈ rest, pyStrip l = [] ∨ (pyStrip l).contains ':' = true :=
      fun l hl => h l (List.mem_cons_of_mem raw hl)
    rcases h raw (List.mem_cons_self raw rest) with hb | hc
    · simp only [fallbackGo]
      rw [if_pos (by simp [hb])]
      exact ih hrest (idx + 1) acc
    · have hne : (pyStrip raw).isEmpty = false := by
        cases hpb : pyStrip raw with
        | nil => rw [hpb] at hc; exact absurd hc (by decide)
        | cons a as => rfl
      simp only [fallbackGo, hne, Bool.false_eq_true, if_false]
      rw [if_pos hc]
      exact ih hrest (idx + 1) _

/-- C6 amended: the fallback parser succeeds, producing a mapping and no
parse failure, on any header whose non-blank lines each contain a colon —
this covers the documented scalar lines and inline-list lines — but not on
block lists, whose dash item lines have no colon (see the
counterexample). -/
theorem c6_fallback_colon_lines_amended (fm : List Line)
    (h : ∀ l ∈ fm, pyStrip l = [] ∨ (pyStrip l).contains ':' = true) :
    ∃ ks, parseFrontMatterFallback fm = (some ks, none) :=
  fallbackGo_all_colon fm h 1 []

theorem c6_fallback_colon_lines_amended_witness :
    ∃ ks, parseFrontMatterFallback
      ["layout: recipe\n".toList, "tags: [a, b]\n".toList] = (some ks, none) :=
  c6_fallback_colon_lines_amended
    ["layout: recipe\n".toList, "tags: [a, b]\n".toList] (by decide)

/-- C7: modelling one `StagePipeline._write` to a fresh target, every
filesystem snapshot a crash could leave holds either no file at the final
path or the complete content there, never partial content; the write
reaches the full content on the temporary sibling path before the single
atomic rename installs it at the final path as the last step. -/
theorem c7_atomic_staged_write (content : List Char) (st : FSState)
    (h : st ∈ writeStates content) :
    (st.target = none ∨ st.target = some content) ∧
    (writeStates content).getLast? = some ⟨none, some content⟩ ∧
    (writeStates content).get? content.length = some ⟨some content, none⟩ := by
  refine ⟨?_, ?_, ?_⟩
  · unfold writeStates at h
    rw [List.mem_append] at h
    rcases h with h | h
    · rw [List.mem_map] at h
      obtain ⟨k, _, hk⟩ := h
      left
      rw [← hk]
    · rw [List.mem_singleton] at h
      right
      rw [h]
  · unfold writeStates
    exact List.getLast?_concat _
  · unfold writeStates
    rw [List.get?_append (by simp)]
    rw [List.get?_map]
    rw [List.get?_range (by omega)]
    simp

theorem c7_atomic_staged_write_witness :
    (((⟨some ['a'], none⟩ : FSState).target = none ∨
      (⟨some ['a'], none⟩ : FSState).target = some ['a', 'b'])) ∧
    (writeStates ['a', 'b']).getLast? = some ⟨none, some ['a', 'b']⟩ ∧
    (writeStates ['a', 'b']).get? (['a', 'b'] : List Char).length =
      some ⟨some ['a', 'b'], none⟩ :=
  c7_atomic_staged_write ['a', 'b'] ⟨some ['a'], none⟩ (by decide)

/-- C4: the stage vocabulary `StagePipeline` defines is the six-stage list
input, ai_normalized, linted, ai_fixed, ready, rejected — not the nine
stages the claim fixes — and the AI branch of the repair orchestrator
invokes the transitions to_enriched_frontmatter, to_enriched_nutrition and
to_merged, none of which `StagePipeline` defines. -/
theorem c4_stage_vocabulary_bug :
    ("to_enriched_frontmatter" ∈ aiBranchOps ∧
      "to_enriched_frontmatter" ∉ stagePipelineOps) ∧
    ("to_enriched_nutrition" ∈ aiBranchOps ∧
      "to_enriched_nutrition" ∉ stagePipelineOps) ∧
    ("to_merged" ∈ aiBranchOps ∧ "to_merged" ∉ stagePipelineOps) ∧
    stagePipelineSTAGES.map Prod.fst ≠ specStageVocabulary ∧
    stagePipelineSTAGES.length = 6 ∧ specStageVocabulary.length = 9 := by
  decide

theorem aiFixLoop_all_fail (k : Nat) :
    ∀ a p, aiFixLoop aiBranchOps (fun _ => true) k a p true =
      ⟨a + k, p + k, Sum.inr "rejected"⟩ := by
  induction k with
  | zero => intro a p; rfl
  | succ k ih =>
    intro a p
    have hstep : aiFixLoop aiBranchOps (fun _ => true) (k + 1) a p true
        = aiFixLoop aiBranchOps (fun _ => true) k (a + 1) (p + 1) true := rfl
    rw [hstep, ih (a + 1) (p + 1)]
    have e1 : a + 1 + k = a + (k + 1) := by omega
    have e2 : p + 1 + k = p + (k + 1) := by omega
    rw [e1, e2]

/-- C3: against the `StagePipeline` of the repository the AI branch stops
with an AttributeError on to_enriched_frontmatter before any lint pass;
against a pipeline that defines the stage transitions the branch invokes
(the behaviour the spec and the module tests fix), a rewriter whose output
always fails validation makes the branch perform exactly max_attempts lint
passes and return a rejected outcome with attempts = max_attempts, for
every max_attempts of at least 1. -/
theorem c3_attempt_budget_on_ai_branch :
    (processOneDraftAI stagePipelineOps (fun _ => true) 2 =
      ⟨1, 0, Sum.inl "to_enriched_frontmatter"⟩) ∧
    (∀ m : Nat, 1 ≤ m →
      processOneDraftAI aiBranchOps (fun _ => true) m =
        ⟨m, m, Sum.inr "rejected"⟩) := by
  refine ⟨by decide, ?_⟩
  intro m hm
  have h1 : processOneDraftAI aiBranchOps (fun _ => true) m
      = aiFixLoop aiBranchOps (fun _ => true) (m - 1) 1 1 true := rfl
  rw [h1, aiFixLoop_all_fail (m - 1) 1 1]
  have e : 1 + (m - 1) = m := by omega
  rw [e]
